import Mathlib

/-!
Shallow embedding of `oracle_kiosk.py` (Streamlit Oracle Kiosk app).

The per-session mutable state (`st.session_state`) is modelled as the record
`SessionState`; each button handler of the script becomes a pure function
from the old state (plus the outcome of any external HTTP call, passed in as
an `Except` value) to the new state together with the list of external calls
it performed and the error messages it surfaced to the operator
(`st.error` / `st.exception`).  The two vendor adapters
(`generate_oracle_text`, `elevenlabs_tts`) are modelled by their request
payload construction and their handling of an abstract HTTP response.
-/

/-- Python truthiness-based `or` on strings: `a or b` yields `b` when `a` is
the empty string (falsy), else `a`. -/
def pyOr (a b : String) : String :=
  if a = "" then b else a

/-- `st.session_state.get(key) or fallback` where the key holds an optional
string: `None` and `""` are both falsy in Python. -/
def pyOrOpt (a : Option String) (b : String) : String :=
  match a with
  | some s => pyOr s b
  | none => b

/-- The per-session state of the app: the three keys initialised at lines
186-191 of `oracle_kiosk.py` plus the `oracle_text_edit` widget key (absent
until the review text area has been rendered). `audio_bytes` is the raw mp3
byte blob; `scan_time` is the measured generation duration (abstracted to a
natural number tick count). -/
structure SessionState where
  oracle_text : String
  oracle_text_edit : Option String
  audio_bytes : Option (List Nat)
  scan_time : Nat
  deriving DecidableEq, Repr

/-- The state of a freshly created session (lines 186-191: `oracle_text`
initialised to `""`, `audio_bytes` to `None`, `scan_time` to `0.0`; the
`oracle_text_edit` widget key does not exist yet). -/
def initialSessionState : SessionState :=
  { oracle_text := "", oracle_text_edit := none, audio_bytes := none, scan_time := 0 }

/-- An external HTTP call performed by a handler: either the Text Generator
(OpenAI chat completion) or the Speech Synthesizer (ElevenLabs TTS, recording
the text, voice id and api key it was invoked with). -/
inductive ExtCall where
  | textGen
  | speechSynth (text : String) (voiceId : String) (apiKey : String)
  deriving DecidableEq, Repr

/-- Result of running one handler: the new session state, the external calls
made (in order), and the error messages surfaced to the operator. -/
structure StepOut where
  state : SessionState
  calls : List ExtCall
  errors : List String
  deriving DecidableEq, Repr

/-- The submit handler (lines 194-213): if the OpenAI key or the model name
is missing, report a configuration error and change nothing; otherwise call
the Text Generator. On success store the text, reset any previous audio and
record the scan time; on exception leave the state untouched and surface the
exception. `gen` is the outcome of the `generate_oracle_text` call and
`elapsed` the measured duration. -/
def handleSubmit (openaiKey modelName : String) (gen : Except String String)
    (elapsed : Nat) (s : SessionState) : StepOut :=
  if openaiKey = "" ∨ modelName = "" then
    { state := s, calls := [], errors := ["Missing OpenAI credentials or model name."] }
  else
    match gen with
    | Except.ok text =>
        { state := { s with oracle_text := text, audio_bytes := none, scan_time := elapsed },
          calls := [ExtCall.textGen], errors := [] }
    | Except.error e =>
        { state := s, calls := [ExtCall.textGen], errors := [e] }

/-- The Regenerate button handler (lines 234-245): re-call the Text Generator
with the same inputs; on success store the new text into both `oracle_text`
and the `oracle_text_edit` widget key, clear `audio_bytes` and record the
scan time; on exception leave the state untouched and surface the
exception. -/
def handleRegenerate (gen : Except String String) (elapsed : Nat)
    (s : SessionState) : StepOut :=
  match gen with
  | Except.ok text =>
      { state := { s with oracle_text := text, oracle_text_edit := some text,
                          audio_bytes := none, scan_time := elapsed },
        calls := [ExtCall.textGen], errors := [] }
  | Except.error e =>
      { state := s, calls := [ExtCall.textGen], errors := [e] }

/-- Editing the review text area (line 231, widget key `oracle_text_edit`):
a pure local mutation of the widget key, no external call. -/
def handleEdit (newText : String) (s : SessionState) : StepOut :=
  { state := { s with oracle_text_edit := some newText }, calls := [], errors := [] }

/-- The Approve button handler (lines 248-258): if both the ElevenLabs API
key and the voice id are missing, report a configuration error without
calling the synthesizer; otherwise resolve the text for TTS as
`st.session_state.get("oracle_text_edit") or st.session_state["oracle_text"]`
and call the Speech Synthesizer with it (voice `voice_id or ELEVEN_VOICE_ID`).
On success store the returned audio bytes; on exception leave the state
untouched and surface the exception. `synth` is the outcome of the
`elevenlabs_tts` call. -/
def handleApprove (elevenKey voiceId elevenVoiceIdEnv : String)
    (synth : Except String (List Nat)) (s : SessionState) : StepOut :=
  if elevenKey = "" ∧ voiceId = "" then
    { state := s, calls := [], errors := ["Missing ElevenLabs API key or Voice ID."] }
  else
    let text_for_tts := pyOrOpt s.oracle_text_edit s.oracle_text
    let call := ExtCall.speechSynth text_for_tts (pyOr voiceId elevenVoiceIdEnv) elevenKey
    match synth with
    | Except.ok audio =>
        { state := { s with audio_bytes := some audio }, calls := [call], errors := [] }
    | Except.error e =>
        { state := s, calls := [call], errors := [e] }

/-- The system prompt sent as the first chat message (lines 57-69 of
`oracle_kiosk.py`). -/
def SYSTEM_PROMPT : String :=
  "You are an omniscient, cybernetic oracle. "
  ++ "You don’t predict the future magically, but by running vast probability models on human patterns. "
  ++ "Your voice blends clinical precision + poetic insight. "
  ++ "Your outputs must feel hyperspecific yet universally relatable, leveraging Barnum/Forer-style statements. "
  ++ "Avoid astrological or mystical references directly (no zodiac, no ‘stars say…’). "
  ++ "Use the tone of prophecy, but frame it as data-driven probability scanning. "
  ++ "Each output must end with a Takeaway: a single poetic directive, framed as an action or shift.\n\n"
  ++ "Always start with: \"Subject: [Name]. [Occupation]. [Detail]. Identity verified. Neural scan complete. Predictive model activated.\"\n"
  ++ "Select the correct template (short, medium, or long) based on the provided Length input.\n"
  ++ "Incorporate Name, Occupation, Detail, and optional Birthday (if given, weave seasonal/monthly archetypes subtly).\n"
  ++ "Return exactly one oracle output."

/-- `USER_INSTRUCTION.format(...)` (lines 102-110): the user-role message
content with the participant fields substituted in. -/
def USER_INSTRUCTION_fmt (name occupation detail birthday length : String) : String :=
  "When the user provides input in the following format, return one completed oracle output "
  ++ "strictly following the templates above.\n\n"
  ++ "Name: " ++ name ++ "\n"
  ++ "Occupation: " ++ occupation ++ "\n"
  ++ "Detail: " ++ detail ++ "\n"
  ++ "Birthday: " ++ birthday ++ "\n"
  ++ "Length: " ++ length ++ "\n"

/-- Python `str.strip()`: drop leading and trailing whitespace. -/
def pyStrip (s : String) : String :=
  ⟨((s.data.dropWhile Char.isWhitespace).reverse.dropWhile Char.isWhitespace).reverse⟩

/-- One `role`/`content` chat message. -/
structure ChatMessage where
  role : String
  content : String
  deriving DecidableEq, Repr

/-- One entry of the response's `choices` array (only the `message` field is
read by the code). -/
structure ChatChoice where
  message : ChatMessage
  deriving DecidableEq, Repr

/-- The JSON payload `generate_oracle_text` posts to the chat completions
endpoint (lines 121-138): model identifier, the two messages, temperature
0.8 and a 700-token budget. -/
structure ChatPayload where
  model : String
  messages : List ChatMessage
  temperature : ℚ
  max_tokens : Nat
  deriving DecidableEq, Repr

/-- The request payload built by `generate_oracle_text` (lines 121-138):
each empty participant field is replaced by "not provided" via Python `or`
before substitution into the user instruction. -/
def chatCompletionsPayload (name occupation detail birthday length model : String) :
    ChatPayload :=
  { model := model,
    messages :=
      [⟨"system", SYSTEM_PROMPT⟩,
       ⟨"user", USER_INSTRUCTION_fmt (pyOr name "not provided")
                  (pyOr occupation "not provided") (pyOr detail "not provided")
                  (pyOr birthday "not provided") length⟩],
    temperature := 8 / 10,
    max_tokens := 700 }

/-- An HTTP response as seen by the adapter: a status code and the parsed
JSON `choices` array (`none` models an unparsable/malformed body). -/
structure HttpResponse where
  status : Nat
  body : Option (List ChatChoice)
  deriving DecidableEq, Repr

/-- `requests.Response.raise_for_status()`: raises `HTTPError` exactly for
4xx client-error and 5xx server-error status codes. -/
def raise_for_status (status : Nat) : Except String Unit :=
  if 400 ≤ status ∧ status < 600 then
    Except.error ("HTTP error " ++ toString status)
  else
    Except.ok ()

/-- The response handling of `generate_oracle_text` (lines 139-142):
`raise_for_status`, then `data["choices"][0]["message"]["content"].strip()`;
a missing or empty `choices` array raises (KeyError/IndexError), and the
returned string is trimmed of surrounding whitespace. -/
def generate_oracle_text (resp : HttpResponse) : Except String String :=
  match raise_for_status resp.status with
  | Except.error e => Except.error e
  | Except.ok _ =>
      match resp.body with
      | none => Except.error "malformed response body"
      | some [] => Except.error "no choices in response"
      | some (c :: _) => Except.ok (pyStrip c.message.content)

/-- Modelled from the spec: the reset control, present in other revisions of
the app but not in the `oracle_kiosk.py` revision under `src/`. Per the
spec's transition table, reset is available from any state, clears all
`SessionState` fields (yielding a freshly created session) and returns the
machine to Idle; it performs no external call. -/
def handleReset (_s : SessionState) : StepOut :=
  { state := initialSessionState, calls := [], errors := [] }

/-- C1: when approve-synthesize fires (credentials present, so the call is
attempted), the text passed to the Speech Synthesizer is `editedText` if
non-empty, else `generatedText`, resolved from the session state at the
moment the handler runs. -/
theorem C1_approve_uses_edited_else_generated
    (elevenKey voiceId env : String) (synth : Except String (List Nat))
    (s : SessionState) (h : ¬(elevenKey = "" ∧ voiceId = "")) :
    ∃ voice key,
      (handleApprove elevenKey voiceId env synth s).calls =
        [ExtCall.speechSynth
          (match s.oracle_text_edit with
           | some e => if e = "" then s.oracle_text else e
           | none => s.oracle_text)
          voice key] := by
  refine ⟨pyOr voiceId env, elevenKey, ?_⟩
  unfold handleApprove
  rw [if_neg h]
  cases synth <;> cases hedit : s.oracle_text_edit <;>
    simp [pyOrOpt, pyOr, hedit]

/-- Witness for C1 at the spec's two examples: with `generatedText = "A"` and
`editedText = "B"` the synthesizer receives `"B"`; with `editedText = ""` it
receives `"A"`. -/
theorem C1_witness :
    (∃ voice key,
      (handleApprove "k" "v" "" (Except.ok [1]) ⟨"A", some "B", none, 0⟩).calls =
        [ExtCall.speechSynth "B" voice key]) ∧
    (∃ voice key,
      (handleApprove "k" "v" "" (Except.ok [1]) ⟨"A", some "", none, 0⟩).calls =
        [ExtCall.speechSynth "A" voice key]) := by
  constructor
  · have h := C1_approve_uses_edited_else_generated "k" "v" ""
      (Except.ok [1]) ⟨"A", some "B", none, 0⟩ (by simp)
    simpa using h
  · have h := C1_approve_uses_edited_else_generated "k" "v" ""
      (Except.ok [1]) ⟨"A", some "", none, 0⟩ (by simp)
    simpa using h

/-- C2: every successful operation that stores a new `generatedText`
(submit-scan with credentials present, or regenerate) clears `audio_bytes`,
for every prior session state and regardless of the generated text. -/
theorem C2_success_clears_audio
    (openaiKey modelName text : String) (elapsed : Nat) (s : SessionState)
    (h : ¬(openaiKey = "" ∨ modelName = "")) :
    (handleSubmit openaiKey modelName (Except.ok text) elapsed s).state.audio_bytes = none ∧
    (handleRegenerate (Except.ok text) elapsed s).state.audio_bytes = none := by
  constructor
  · unfold handleSubmit
    rw [if_neg h]
  · rfl

/-- Witness for C2: a state holding audio and the same text regenerated still
ends with audio cleared. -/
theorem C2_witness :
    (handleSubmit "k" "m" (Except.ok "T") 5 ⟨"T", some "T", some [9], 1⟩).state.audio_bytes = none ∧
    (handleRegenerate (Except.ok "T") 5 ⟨"T", some "T", some [9], 1⟩).state.audio_bytes = none :=
  C2_success_clears_audio "k" "m" "T" 5 ⟨"T", some "T", some [9], 1⟩ (by simp)

/-- C3: when the Text Generator call raises during submit-scan or regenerate,
the session state (all of `oracle_text`, `oracle_text_edit`, `audio_bytes`,
`scan_time`) is exactly as before the attempt, and the error is surfaced. -/
theorem C3_generator_failure_leaves_state_unchanged
    (openaiKey modelName err : String) (elapsed : Nat) (s : SessionState)
    (h : ¬(openaiKey = "" ∨ modelName = "")) :
    (handleSubmit openaiKey modelName (Except.error err) elapsed s).state = s ∧
    (handleRegenerate (Except.error err) elapsed s).state = s ∧
    (handleSubmit openaiKey modelName (Except.error err) elapsed s).errors = [err] ∧
    (handleRegenerate (Except.error err) elapsed s).errors = [err] := by
  unfold handleSubmit handleRegenerate
  rw [if_neg h]
  exact ⟨rfl, rfl, rfl, rfl⟩

/-- Witness for C3: a failed regenerate attempt over an existing state, and a
failed first submit over the fresh state, both leave the state intact. -/
theorem C3_witness :
    (handleSubmit "k" "m" (Except.error "HTTP error 500") 5 initialSessionState).state
      = initialSessionState ∧
    (handleRegenerate (Except.error "HTTP error 500") 5 ⟨"old", some "edit", some [3], 2⟩).state
      = ⟨"old", some "edit", some [3], 2⟩ := by
  have h1 := C3_generator_failure_leaves_state_unchanged "k" "m" "HTTP error 500" 5
    initialSessionState (by simp)
  have h2 := C3_generator_failure_leaves_state_unchanged "k" "m" "HTTP error 500" 5
    (⟨"old", some "edit", some [3], 2⟩ : SessionState) (by simp)
  exact ⟨h1.1, h2.2.1⟩

/-- C4: if both the synthesis API key and the voice identifier are
unconfigured (empty), approve-synthesize reports a configuration error, does
not call the Speech Synthesizer, and leaves the state unchanged — the check
precedes any call attempt. -/
theorem C4_missing_synth_credentials_no_call
    (env : String) (synth : Except String (List Nat)) (s : SessionState) :
    (handleApprove "" "" env synth s).calls = [] ∧
    (handleApprove "" "" env synth s).errors = ["Missing ElevenLabs API key or Voice ID."] ∧
    (handleApprove "" "" env synth s).state = s := by
  exact ⟨rfl, rfl, rfl⟩

/-- C5 counterexample: with audio bytes left over from a previous synthesis,
a failed Speech Synthesizer call leaves that old audio in place — `audio` is
not "left unset" as the claim states. -/
theorem C5_counterexample :
    (handleApprove "key" "voice" "" (Except.error "boom")
        ⟨"A", some "A", some [7, 7], 1⟩).state.audio_bytes = some [7, 7] ∧
    some [7, 7] ≠ (none : Option (List Nat)) := by
  exact ⟨rfl, by simp⟩

/-- C5 (amended): when the Speech Synthesizer call raises during
approve-synthesize, the whole session state — `audio_bytes` included — is
left exactly as before the attempt (so unset only if it was already unset),
the error is surfaced, and the machine stays in Reviewing. -/
theorem C5_synth_failure_leaves_state_unchanged
    (elevenKey voiceId env err : String) (s : SessionState)
    (h : ¬(elevenKey = "" ∧ voiceId = "")) :
    (handleApprove elevenKey voiceId env (Except.error err) s).state = s ∧
    (handleApprove elevenKey voiceId env (Except.error err) s).errors = [err] := by
  unfold handleApprove
  rw [if_neg h]
  exact ⟨rfl, rfl⟩

/-- Witness for C5 (amended): concrete failed synthesis with no prior audio
leaves the state, audio unset included, untouched. -/
theorem C5_witness :
    (handleApprove "key" "voice" "" (Except.error "boom") ⟨"A", none, none, 0⟩).state
      = ⟨"A", none, none, 0⟩ ∧
    (handleApprove "key" "voice" "" (Except.error "boom") ⟨"A", none, none, 0⟩).errors
      = ["boom"] :=
  C5_synth_failure_leaves_state_unchanged "key" "voice" "" "boom"
    ⟨"A", none, none, 0⟩ (by simp)

/-- C6: edit-text performs no external call and mutates only the
`oracle_text_edit` key: the resulting state is the old state with
`oracle_text_edit` replaced (so `oracle_text`, `audio_bytes` and `scan_time`
are untouched). -/
theorem C6_edit_is_pure_local_mutation (newText : String) (s : SessionState) :
    (handleEdit newText s).calls = [] ∧
    (handleEdit newText s).state = { s with oracle_text_edit := some newText } ∧
    (handleEdit newText s).state.oracle_text = s.oracle_text := by
  exact ⟨rfl, rfl, rfl⟩

/-- C7: reset is applicable to every session state and yields exactly the
fresh-session state with no external call, returning the machine to Idle. -/
theorem C7_reset_yields_fresh_session (s : SessionState) :
    handleReset s = { state := initialSessionState, calls := [], errors := [] } :=
  rfl

/-- C8 counterexample: the claim says every non-2xx response is a fatal
GenerationError, but `raise_for_status` only raises for 4xx/5xx — a 304
response with a well-formed body is accepted and its first choice returned. -/
theorem C8_counterexample :
    generate_oracle_text ⟨304, some [⟨⟨"assistant", "hi"⟩⟩]⟩ = Except.ok "hi" ∧
    ¬(200 ≤ 304 ∧ 304 < 300) := by
  exact ⟨rfl, by simp⟩

/-- C8 (amended): the request is the model identifier, exactly two messages
(system prompt then user instruction, in that order), a temperature and a
max-token budget; on success the value is the first choice's message content
trimmed of surrounding whitespace; any 4xx or 5xx response (the statuses
`raise_for_status` rejects) is a fatal error for that call. -/
theorem C8_request_shape_and_response_handling
    (name occupation detail birthday length model : String) (resp : HttpResponse) :
    (chatCompletionsPayload name occupation detail birthday length model).messages.map
        ChatMessage.role = ["system", "user"] ∧
    (chatCompletionsPayload name occupation detail birthday length model).model = model ∧
    (chatCompletionsPayload name occupation detail birthday length model).temperature = 8 / 10 ∧
    (chatCompletionsPayload name occupation detail birthday length model).max_tokens = 700 ∧
    (∀ c rest, resp.status < 400 → resp.body = some (c :: rest) →
        generate_oracle_text resp = Except.ok (pyStrip c.message.content)) ∧
    (400 ≤ resp.status → resp.status < 600 →
        ∃ e, generate_oracle_text resp = Except.error e) := by
  refine ⟨rfl, rfl, rfl, rfl, ?_, ?_⟩
  · intro c rest hlt hbody
    unfold generate_oracle_text raise_for_status
    rw [hbody]
    simp [Nat.not_le.mpr hlt]
  · intro h4 h6
    refine ⟨"HTTP error " ++ toString resp.status, ?_⟩
    unfold generate_oracle_text raise_for_status
    simp [h4, h6]

/-- Witness for C8 (amended): concrete payload shape; a 200 response with a
padded first choice yields the trimmed text; a 500 response is an error. -/
theorem C8_witness :
    (chatCompletionsPayload "Ada" "Engineer" "loves trains" "not provided" "short"
        "gpt-4o-mini").messages.map ChatMessage.role = ["system", "user"] ∧
    generate_oracle_text ⟨200, some [⟨⟨"assistant", "  Subject: Ada.  "⟩⟩]⟩ =
      Except.ok "Subject: Ada." ∧
    (∃ e, generate_oracle_text ⟨500, none⟩ = Except.error e) := by
  have h := C8_request_shape_and_response_handling "Ada" "Engineer" "loves trains"
    "not provided" "short" "gpt-4o-mini" ⟨500, none⟩
  have h200 := C8_request_shape_and_response_handling "Ada" "Engineer" "loves trains"
    "not provided" "short" "gpt-4o-mini"
    (⟨200, some [⟨⟨"assistant", "  Subject: Ada.  "⟩⟩]⟩ : HttpResponse)
  refine ⟨h.1, ?_, h.2.2.2.2.2 (by simp) (by simp)⟩
  have := h200.2.2.2.2.1 ⟨⟨"assistant", "  Subject: Ada.  "⟩⟩ [] (by simp) rfl
  simpa using this

/-- C9: a successful regenerate overwrites `oracle_text_edit` with the newly
generated text, the same value stored into `oracle_text`, so afterwards the
edited text equals the generated text. -/
theorem C9_regenerate_overwrites_edit (text : String) (elapsed : Nat) (s : SessionState) :
    (handleRegenerate (Except.ok text) elapsed s).state.oracle_text = text ∧
    (handleRegenerate (Except.ok text) elapsed s).state.oracle_text_edit =
      some ((handleRegenerate (Except.ok text) elapsed s).state.oracle_text) := by
  exact ⟨rfl, rfl⟩

/-- C10: in the payload sent to the Text Generator, each empty participant
field among name, occupation, detail and birthday is replaced by the literal
"not provided" in the user-role message, while non-empty fields and the
length selector pass through unchanged (and the system message is the fixed
prompt). -/
theorem C10_empty_fields_become_not_provided
    (name occupation detail birthday length model : String) :
    (chatCompletionsPayload name occupation detail birthday length model).messages.map
        ChatMessage.content =
      [SYSTEM_PROMPT,
       USER_INSTRUCTION_fmt
         (if name = "" then "not provided" else name)
         (if occupation = "" then "not provided" else occupation)
         (if detail = "" then "not provided" else detail)
         (if birthday = "" then "not provided" else birthday)
         length] := by
  simp [chatCompletionsPayload, pyOr]
